import Mathlib

/-!
Flag validation of gnark-bench (`cmd/root.go`).

A shallow embedding of `parseFlags` and of the package variables it writes
(`p`, `curveID`, `c`), followed by theorems about the validation contract.

The libraries `parseFlags` calls into are not part of `cmd/root.go`:
`ecc.Implemented`, `ecc.ID.String`, `ecc.UNKNOWN` (gnark-crypto),
`strings.ToLower` (Go standard library), the three factories of
`github.com/pkg/profile` and the table `circuit.BenchCircuits`.  They are
collected in the structure `Env` and every general theorem holds for an
arbitrary `Env`.
-/

namespace GnarkBench

/-- The type `ecc.ID` is an unsigned 16-bit enumeration; only equality of
identifiers is ever used by `parseFlags`, so identifiers are natural numbers. -/
abbrev ID := Nat

/-- What `cmd/root.go` imports: the curve enumeration, the profile factories
and the circuit registry.  `PF` is the type of non-nil values of
`func(p *profile.Profile)`, `BC` the type of values of the interface
`circuit.BenchCircuit` (its nil value included, as `nilCircuit`). -/
structure Env (PF BC : Type) where
  /-- The constant `ecc.UNKNOWN`. -/
  UNKNOWN : ID
  /-- The slice returned by `ecc.Implemented()`. -/
  Implemented : List ID
  /-- The method `ecc.ID.String`. -/
  idString : ID → String
  /-- The function `strings.ToLower`. -/
  ToLower : String → String
  /-- The factory `profile.TraceProfile`. -/
  TraceProfile : PF
  /-- The factory `profile.CPUProfile`. -/
  CPUProfile : PF
  /-- The factory `profile.MemProfile`. -/
  MemProfile : PF
  /-- The map `circuit.BenchCircuits`: `none` when the key is absent. -/
  BenchCircuits : String → Option BC
  /-- The zero value of `circuit.BenchCircuit`, which a failed map lookup yields. -/
  nilCircuit : BC

/-- The flag values `*fCircuit`, `*fCircuitSize`, `*fAlgo`, `*fProfile`,
`*fCount`, `*fCurve` read by `parseFlags`. -/
structure Flags where
  fCircuit : String
  fCircuitSize : Int
  fAlgo : String
  fProfile : String
  fCount : Int
  fCurve : String
deriving DecidableEq, Repr

/-- The package variables `curveID`, `p`, `c`.  A nil `p` is `none`. -/
structure State (PF BC : Type) where
  curveID : ID
  p : Option PF
  c : BC
deriving DecidableEq, Repr

variable {PF BC : Type}

/-- The `switch *fProfile` of `parseFlags`: the value of `p` after the switch,
or `none` when the `default` branch returns the error. -/
def switchProfile (env : Env PF BC) (fProfile : String) (p : Option PF) : Option (Option PF) :=
  if fProfile = "none" then some p
  else if fProfile = "trace" then some (some env.TraceProfile)
  else if fProfile = "cpu" then some (some env.CPUProfile)
  else if fProfile = "mem" then some (some env.MemProfile)
  else none

/-- The loop `for _, id := range curves` of `parseFlags`, as a function of the
value of `curveID` on entry: every matching identifier is assigned in turn. -/
def rangeCurves (env : Env PF BC) (fCurve : String) : List ID → ID → ID
  | [], curveID => curveID
  | id :: rest, curveID =>
    if fCurve = env.ToLower (env.idString id) then rangeCurves env fCurve rest id
    else rangeCurves env fCurve rest curveID

/-- The function `parseFlags`: the package state after the call and the
returned error (`none` for `nil`, otherwise the message given to `errors.New`). -/
def parseFlags (env : Env PF BC) (fl : Flags) (s : State PF BC) : State PF BC × Option String :=
  if fl.fCircuitSize ≤ 0 then (s, some "circuit size must be >= 0")
  else if fl.fCount ≤ 0 then (s, some "bench count must be >= 0")
  else if ¬ (fl.fAlgo = "compile" ∨ fl.fAlgo = "setup" ∨ fl.fAlgo = "prove" ∨ fl.fAlgo = "verify") then
    (s, some "invalid algo")
  else
    match switchProfile env fl.fProfile s.p with
    | none => (s, some "invalid profile")
    | some p1 =>
      let s1 : State PF BC := { s with p := p1 }
      let s2 : State PF BC := { s1 with curveID := rangeCurves env fl.fCurve env.Implemented s1.curveID }
      if s2.curveID = env.UNKNOWN then (s2, some "invalid curve")
      else
        match env.BenchCircuits fl.fCircuit with
        | none => ({ s2 with c := env.nilCircuit }, some "unknown circuit")
        | some v => ({ s2 with c := v }, none)

/-! ## A concrete environment -/

/-- The profile factories of `github.com/pkg/profile` used by the tool. -/
inductive ProfileFn where
  | TraceProfile
  | CPUProfile
  | MemProfile
deriving DecidableEq, Repr

/-- ASCII lower-casing of one character. -/
def lowerChar (ch : Char) : Char :=
  if 65 ≤ ch.toNat ∧ ch.toNat ≤ 90 then Char.ofNat (ch.toNat + 32) else ch

/-- ASCII lower-casing of a string; `strings.ToLower` agrees with it on
strings of ASCII characters. -/
def asciiLower (str : String) : String :=
  String.mk (str.data.map lowerChar)

/-- A concrete instance of `Env`: five curves numbered from 1 with
`ecc.UNKNOWN = 0`, names as gnark-crypto prints them, ASCII lower-casing, and
a registry with the single key `"expo"` (the default of the `circuit` flag).
Circuits are represented by `Option String`, `none` being the nil interface. -/
def sampleEnv : Env ProfileFn (Option String) where
  UNKNOWN := 0
  Implemented := [1, 2, 3, 5, 4]
  idString := fun id =>
    if id = 1 then "bn254"
    else if id = 2 then "bls12_377"
    else if id = 3 then "bls12_381"
    else if id = 4 then "bls24_315"
    else if id = 5 then "bw6_761"
    else "unknown"
  ToLower := asciiLower
  TraceProfile := ProfileFn.TraceProfile
  CPUProfile := ProfileFn.CPUProfile
  MemProfile := ProfileFn.MemProfile
  BenchCircuits := fun key => if key = "expo" then some (some "expo") else none
  nilCircuit := none

/-- The package state at process start: every variable holds its zero value. -/
def sampleInit : State ProfileFn (Option String) :=
  { curveID := 0, p := none, c := none }

/-- The default values of the six flags, as registered in `init`. -/
def defaultFlags : Flags :=
  { fCircuit := "expo", fCircuitSize := 10000, fAlgo := "prove",
    fProfile := "none", fCount := 2, fCurve := "bn254" }

/-! ## The six checks, as predicates on the flags -/

/-- The `algo` flag is one of the four literals of the `switch *fAlgo`. -/
def ValidAlgo (fAlgo : String) : Prop :=
  fAlgo = "compile" ∨ fAlgo = "setup" ∨ fAlgo = "prove" ∨ fAlgo = "verify"

instance (fAlgo : String) : Decidable (ValidAlgo fAlgo) := by
  unfold ValidAlgo; infer_instance

/-- The `profile` flag is one of the four literals of the `switch *fProfile`. -/
def ValidProfile (fProfile : String) : Prop :=
  fProfile = "none" ∨ fProfile = "trace" ∨ fProfile = "cpu" ∨ fProfile = "mem"

instance (fProfile : String) : Decidable (ValidProfile fProfile) := by
  unfold ValidProfile; infer_instance

/-- The `curve` flag equals the lower-cased name of a curve enumerated by
`ecc.Implemented()`. -/
def ValidCurve (env : Env PF BC) (fCurve : String) : Prop :=
  ∃ id ∈ env.Implemented, fCurve = env.ToLower (env.idString id)

instance (env : Env PF BC) (fCurve : String) : Decidable (ValidCurve env fCurve) := by
  unfold ValidCurve; infer_instance

/-- A flag assignment that is valid in every field. -/
def ValidFlags (env : Env PF BC) (fl : Flags) : Prop :=
  0 < fl.fCircuitSize ∧ 0 < fl.fCount ∧ ValidAlgo fl.fAlgo ∧ ValidProfile fl.fProfile ∧
    ValidCurve env fl.fCurve ∧ (env.BenchCircuits fl.fCircuit).isSome = true

instance (env : Env PF BC) (fl : Flags) : Decidable (ValidFlags env fl) := by
  unfold ValidFlags; infer_instance

/-- The error of the first failing check in the order size, count, algo,
profile, curve, circuit, written from the six validity conditions alone (the
package state does not occur); `none` when no check fails. -/
def firstFailingCheck (env : Env PF BC) (fl : Flags) : Option String :=
  if ¬ 0 < fl.fCircuitSize then some "circuit size must be >= 0"
  else if ¬ 0 < fl.fCount then some "bench count must be >= 0"
  else if ¬ ValidAlgo fl.fAlgo then some "invalid algo"
  else if ¬ ValidProfile fl.fProfile then some "invalid profile"
  else if ¬ ValidCurve env fl.fCurve then some "invalid curve"
  else if (env.BenchCircuits fl.fCircuit).isSome = false then some "unknown circuit"
  else none

/-! ## Lemmas on the curve loop and the profile switch -/

theorem rangeCurves_cases (env : Env PF BC) (fCurve : String) (l : List ID) (cur : ID) :
    (rangeCurves env fCurve l cur = cur ∧ ∀ id ∈ l, fCurve ≠ env.ToLower (env.idString id)) ∨
    (rangeCurves env fCurve l cur ∈ l ∧
      fCurve = env.ToLower (env.idString (rangeCurves env fCurve l cur)) ∧
      ∀ cur2, rangeCurves env fCurve l cur2 = rangeCurves env fCurve l cur) := by
  induction l generalizing cur with
  | nil => left; simp [rangeCurves]
  | cons id rest ih =>
    by_cases hm : fCurve = env.ToLower (env.idString id)
    · right
      have hstep : ∀ x, rangeCurves env fCurve (id :: rest) x = rangeCurves env fCurve rest id := by
        intro x; simp [rangeCurves, hm.symm]
      rw [hstep cur]
      refine ⟨?_, ?_, fun cur2 => hstep cur2⟩
      · rcases ih id with h | h
        · rw [h.1]; exact List.mem_cons_self _ _
        · exact List.mem_cons_of_mem _ h.1
      · rcases ih id with h | h
        · rw [h.1]; exact hm
        · exact h.2.1
    · have hstep : ∀ x, rangeCurves env fCurve (id :: rest) x = rangeCurves env fCurve rest x := by
        intro x; simp [rangeCurves, hm]
      rw [hstep cur]
      rcases ih cur with h | h
      · left
        refine ⟨h.1, ?_⟩
        intro j hj
        rcases List.mem_cons.mp hj with rfl | hj
        · exact hm
        · exact h.2 j hj
      · right
        refine ⟨List.mem_cons_of_mem _ h.1, h.2.1, ?_⟩
        intro cur2
        rw [hstep cur2]; exact h.2.2 cur2

theorem rangeCurves_of_not_valid (env : Env PF BC) (fCurve : String) (cur : ID)
    (h : ¬ ValidCurve env fCurve) : rangeCurves env fCurve env.Implemented cur = cur := by
  rcases rangeCurves_cases env fCurve env.Implemented cur with h1 | h1
  · exact h1.1
  · exact absurd ⟨_, h1.1, h1.2.1⟩ h

theorem rangeCurves_of_valid (env : Env PF BC) (fCurve : String) (cur : ID)
    (h : ValidCurve env fCurve) :
    rangeCurves env fCurve env.Implemented cur ∈ env.Implemented ∧
      fCurve = env.ToLower (env.idString (rangeCurves env fCurve env.Implemented cur)) := by
  rcases rangeCurves_cases env fCurve env.Implemented cur with h1 | h1
  · obtain ⟨id, hid, hm⟩ := h
    exact absurd hm (h1.2 id hid)
  · exact ⟨h1.1, h1.2.1⟩

theorem rangeCurves_idem (env : Env PF BC) (fCurve : String) (l : List ID) (cur : ID) :
    rangeCurves env fCurve l (rangeCurves env fCurve l cur) = rangeCurves env fCurve l cur := by
  rcases rangeCurves_cases env fCurve l cur with h | h
  · rw [h.1, h.1]
  · exact h.2.2 _

theorem switchProfile_isSome_iff (env : Env PF BC) (fProfile : String) (p : Option PF) :
    (switchProfile env fProfile p).isSome = true ↔ ValidProfile fProfile := by
  unfold switchProfile ValidProfile
  by_cases h1 : fProfile = "none"
  · simp [h1]
  · by_cases h2 : fProfile = "trace"
    · simp [h2]
    · by_cases h3 : fProfile = "cpu"
      · simp [h3]
      · by_cases h4 : fProfile = "mem"
        · simp [h4]
        · simp [h1, h2, h3, h4]

theorem switchProfile_idem (env : Env PF BC) (fProfile : String) (p p1 : Option PF)
    (h : switchProfile env fProfile p = some p1) : switchProfile env fProfile p1 = some p1 := by
  unfold switchProfile at h ⊢
  by_cases h1 : fProfile = "none"
  · simp [h1] at h ⊢
  · by_cases h2 : fProfile = "trace"
    · simpa [h2] using h
    · by_cases h3 : fProfile = "cpu"
      · simpa [h3] using h
      · by_cases h4 : fProfile = "mem"
        · simpa [h4] using h
        · simp [h1, h2, h3, h4] at h

/-- Past the first three checks `parseFlags` is the profile switch, the curve
loop and the registry lookup. -/
theorem parseFlags_past_algo (env : Env PF BC) (fl : Flags) (s : State PF BC)
    (hsize : 0 < fl.fCircuitSize) (hcount : 0 < fl.fCount) (halgo : ValidAlgo fl.fAlgo) :
    parseFlags env fl s =
      match switchProfile env fl.fProfile s.p with
      | none => (s, some "invalid profile")
      | some p1 =>
        if rangeCurves env fl.fCurve env.Implemented s.curveID = env.UNKNOWN then
          ({ curveID := rangeCurves env fl.fCurve env.Implemented s.curveID, p := p1, c := s.c },
            some "invalid curve")
        else
          match env.BenchCircuits fl.fCircuit with
          | none =>
            ({ curveID := rangeCurves env fl.fCurve env.Implemented s.curveID, p := p1,
               c := env.nilCircuit }, some "unknown circuit")
          | some v =>
            ({ curveID := rangeCurves env fl.fCurve env.Implemented s.curveID, p := p1, c := v },
              none) := by
  unfold ValidAlgo at halgo
  unfold parseFlags
  rw [if_neg (not_le.mpr hsize), if_neg (not_le.mpr hcount), if_neg (not_not.mpr halgo)]

/-- With size > 0 and count > 0, an algo flag outside the four literals ends the
call at the `default` branch of the `switch *fAlgo`. -/
theorem parseFlags_of_invalid_algo (env : Env PF BC) (fl : Flags) (s : State PF BC)
    (hsize : 0 < fl.fCircuitSize) (hcount : 0 < fl.fCount) (halgo : ¬ ValidAlgo fl.fAlgo) :
    parseFlags env fl s = (s, some "invalid algo") := by
  unfold ValidAlgo at halgo
  unfold parseFlags
  rw [if_neg (not_le.mpr hsize), if_neg (not_le.mpr hcount), if_pos halgo]

/-- With a valid algo flag the error, if any, is not "invalid algo". -/
theorem parseFlags_of_valid_algo (env : Env PF BC) (fl : Flags) (s : State PF BC)
    (hsize : 0 < fl.fCircuitSize) (hcount : 0 < fl.fCount) (halgo : ValidAlgo fl.fAlgo) :
    (parseFlags env fl s).2 ≠ some "invalid algo" := by
  rw [parseFlags_past_algo env fl s hsize hcount halgo]
  cases switchProfile env fl.fProfile s.p with
  | none => simp
  | some p1 =>
    simp only []
    split
    · simp
    · cases env.BenchCircuits fl.fCircuit <;> simp

/-- The seven ways a call of `parseFlags` can end, with the state each leaves. -/
theorem parseFlags_outcomes (env : Env PF BC) (fl : Flags) (s : State PF BC) :
    parseFlags env fl s = (s, some "circuit size must be >= 0") ∨
    parseFlags env fl s = (s, some "bench count must be >= 0") ∨
    parseFlags env fl s = (s, some "invalid algo") ∨
    parseFlags env fl s = (s, some "invalid profile") ∨
    (∃ p1, switchProfile env fl.fProfile s.p = some p1 ∧
      rangeCurves env fl.fCurve env.Implemented s.curveID = env.UNKNOWN ∧
      parseFlags env fl s =
        ({ curveID := rangeCurves env fl.fCurve env.Implemented s.curveID, p := p1, c := s.c },
          some "invalid curve")) ∨
    (∃ p1, switchProfile env fl.fProfile s.p = some p1 ∧
      rangeCurves env fl.fCurve env.Implemented s.curveID ≠ env.UNKNOWN ∧
      env.BenchCircuits fl.fCircuit = none ∧
      parseFlags env fl s =
        ({ curveID := rangeCurves env fl.fCurve env.Implemented s.curveID, p := p1,
           c := env.nilCircuit }, some "unknown circuit")) ∨
    (∃ p1 v, switchProfile env fl.fProfile s.p = some p1 ∧
      rangeCurves env fl.fCurve env.Implemented s.curveID ≠ env.UNKNOWN ∧
      env.BenchCircuits fl.fCircuit = some v ∧
      parseFlags env fl s =
        ({ curveID := rangeCurves env fl.fCurve env.Implemented s.curveID, p := p1, c := v },
          none)) := by
  by_cases hsize : fl.fCircuitSize ≤ 0
  · left; simp [parseFlags, hsize]
  by_cases hcount : fl.fCount ≤ 0
  · right; left; simp [parseFlags, hsize, hcount]
  have hs := not_le.mp hsize
  have hc := not_le.mp hcount
  by_cases halgo : ValidAlgo fl.fAlgo
  swap
  · right; right; left
    exact parseFlags_of_invalid_algo env fl s hs hc halgo
  rw [parseFlags_past_algo env fl s hs hc halgo]
  right; right; right
  cases hsw : switchProfile env fl.fProfile s.p with
  | none => left; rfl
  | some p1 =>
    right
    simp only []
    by_cases hu : rangeCurves env fl.fCurve env.Implemented s.curveID = env.UNKNOWN
    · left
      exact ⟨p1, rfl, hu, by rw [if_pos hu]⟩
    · right
      rw [if_neg hu]
      cases hbc : env.BenchCircuits fl.fCircuit with
      | none => left; exact ⟨p1, rfl, hu, rfl, rfl⟩
      | some v => right; exact ⟨p1, v, rfl, hu, rfl, rfl⟩

/-! ## The validation contract -/

/-- C1: for every prior package state and every flag assignment with
size > 0, count > 0, a valid algo, a valid profile, a curve flag equal to the
lower-cased name of an enumerated curve (none of the enumerated curves being
`ecc.UNKNOWN`) and a circuit flag that is a key of the registry, `parseFlags`
returns nil; afterwards `curveID` is an enumerated curve whose lower-cased name
equals the curve flag and `c` is the registry entry stored under the circuit
flag. -/
theorem parseFlags_valid (env : Env PF BC) (fl : Flags) (s : State PF BC) (id0 : ID) (v : BC)
    (hsize : 0 < fl.fCircuitSize) (hcount : 0 < fl.fCount)
    (halgo : fl.fAlgo = "compile" ∨ fl.fAlgo = "setup" ∨ fl.fAlgo = "prove" ∨ fl.fAlgo = "verify")
    (hprofile : fl.fProfile = "none" ∨ fl.fProfile = "trace" ∨ fl.fProfile = "cpu" ∨
      fl.fProfile = "mem")
    (hunknown : ∀ id ∈ env.Implemented, id ≠ env.UNKNOWN)
    (hid0 : id0 ∈ env.Implemented) (hcurve : fl.fCurve = env.ToLower (env.idString id0))
    (hcircuit : env.BenchCircuits fl.fCircuit = some v) :
    (parseFlags env fl s).2 = none ∧
      (parseFlags env fl s).1.curveID ∈ env.Implemented ∧
      env.ToLower (env.idString (parseFlags env fl s).1.curveID) = fl.fCurve ∧
      (parseFlags env fl s).1.c = v := by
  have hv := rangeCurves_of_valid env fl.fCurve s.curveID ⟨id0, hid0, hcurve⟩
  have hne := hunknown _ hv.1
  rw [parseFlags_past_algo env fl s hsize hcount halgo]
  have hp := (switchProfile_isSome_iff env fl.fProfile s.p).mpr hprofile
  cases hsw : switchProfile env fl.fProfile s.p with
  | none => rw [hsw] at hp; simp at hp
  | some p1 =>
    simp only [if_neg hne, hcircuit]
    exact ⟨trivial, hv.1, hv.2.symm, trivial⟩

/-- Witness for C1: the default flags on the freshly initialised state. -/
theorem parseFlags_valid_witness :
    (parseFlags sampleEnv defaultFlags sampleInit).2 = none ∧
      (parseFlags sampleEnv defaultFlags sampleInit).1.curveID ∈ sampleEnv.Implemented ∧
      sampleEnv.ToLower (sampleEnv.idString (parseFlags sampleEnv defaultFlags sampleInit).1.curveID)
        = defaultFlags.fCurve ∧
      (parseFlags sampleEnv defaultFlags sampleInit).1.c = some "expo" :=
  parseFlags_valid sampleEnv defaultFlags sampleInit 1 (some "expo")
    (by decide) (by decide) (by decide) (by decide) (by decide) (by decide) (by decide) (by decide)

/-- C6: `parseFlags` is idempotent: for every prior state and every flag
assignment, a second call with the same flags returns the same outcome as the
first and leaves the package state as the first call left it. -/
theorem parseFlags_idempotent (env : Env PF BC) (fl : Flags) (s : State PF BC) :
    (parseFlags env fl (parseFlags env fl s).1).2 = (parseFlags env fl s).2 ∧
      (parseFlags env fl (parseFlags env fl s).1).1 = (parseFlags env fl s).1 := by
  by_cases hsize : fl.fCircuitSize ≤ 0
  · simp [parseFlags, hsize]
  by_cases hcount : fl.fCount ≤ 0
  · simp [parseFlags, hsize, hcount]
  by_cases halgo : ValidAlgo fl.fAlgo
  swap
  · unfold ValidAlgo at halgo
    simp only [parseFlags, if_neg hsize, if_neg hcount, if_pos halgo, and_self]
  have hs := not_le.mp hsize
  have hc := not_le.mp hcount
  rw [parseFlags_past_algo env fl s hs hc halgo]
  cases hsw : switchProfile env fl.fProfile s.p with
  | none =>
    simp only []
    rw [parseFlags_past_algo env fl s hs hc halgo, hsw]
    simp
  | some p1 =>
    have hsw1 := switchProfile_idem env fl.fProfile s.p p1 hsw
    have hidem := rangeCurves_idem env fl.fCurve env.Implemented s.curveID
    simp only []
    by_cases hu : rangeCurves env fl.fCurve env.Implemented s.curveID = env.UNKNOWN
    · simp only [if_pos hu]
      rw [parseFlags_past_algo env fl _ hs hc halgo]
      simp only [hsw1, hidem, if_pos hu, and_self]
    · simp only [if_neg hu]
      cases hbc : env.BenchCircuits fl.fCircuit with
      | none =>
        simp only []
        rw [parseFlags_past_algo env fl _ hs hc halgo]
        simp only [hsw1, hidem, if_neg hu, hbc, and_self]
      | some v =>
        simp only []
        rw [parseFlags_past_algo env fl _ hs hc halgo]
        simp only [hsw1, hidem, if_neg hu, hbc, and_self]

/-- C7: for every flag assignment with size > 0, count > 0 and an algo flag
that is not one of compile, setup, prove, verify, whatever the other flags
are, `parseFlags` returns the "invalid algo" error and leaves `p`, `curveID`
and `c` unchanged. -/
theorem parseFlags_invalid_algo (env : Env PF BC) (fl : Flags) (s : State PF BC)
    (hsize : 0 < fl.fCircuitSize) (hcount : 0 < fl.fCount)
    (halgo : ¬ (fl.fAlgo = "compile" ∨ fl.fAlgo = "setup" ∨ fl.fAlgo = "prove" ∨
      fl.fAlgo = "verify")) :
    (parseFlags env fl s).2 = some "invalid algo" ∧
      (parseFlags env fl s).1.p = s.p ∧
      (parseFlags env fl s).1.curveID = s.curveID ∧
      (parseFlags env fl s).1.c = s.c := by
  unfold parseFlags
  rw [if_neg (not_le.mpr hsize), if_neg (not_le.mpr hcount), if_pos halgo]
  exact ⟨rfl, rfl, rfl, rfl⟩

/-- Witness for C7: algo "bogus" with a trace profile, a valid curve and a
valid circuit on the freshly initialised state. -/
theorem parseFlags_invalid_algo_witness :
    (parseFlags sampleEnv { defaultFlags with fAlgo := "bogus", fProfile := "trace" } sampleInit).2
        = some "invalid algo" ∧
      (parseFlags sampleEnv { defaultFlags with fAlgo := "bogus", fProfile := "trace" }
        sampleInit).1.p = sampleInit.p ∧
      (parseFlags sampleEnv { defaultFlags with fAlgo := "bogus", fProfile := "trace" }
        sampleInit).1.curveID = sampleInit.curveID ∧
      (parseFlags sampleEnv { defaultFlags with fAlgo := "bogus", fProfile := "trace" }
        sampleInit).1.c = sampleInit.c :=
  parseFlags_invalid_algo sampleEnv { defaultFlags with fAlgo := "bogus", fProfile := "trace" }
    sampleInit (by decide) (by decide) (by decide)

/-- C9: the algorithm check is a case-sensitive exact match: with size > 0 and
count > 0, `parseFlags` returns "invalid algo" exactly when the algo flag is
not literally one of "compile", "setup", "prove", "verify"; in particular
"Prove", "PROVE", " prove" and the empty string yield "invalid algo". -/
theorem algo_check_exact (env : Env PF BC) (fl : Flags) (s : State PF BC)
    (hsize : 0 < fl.fCircuitSize) (hcount : 0 < fl.fCount) :
    ((parseFlags env fl s).2 ≠ some "invalid algo" ↔
        (fl.fAlgo = "compile" ∨ fl.fAlgo = "setup" ∨ fl.fAlgo = "prove" ∨ fl.fAlgo = "verify")) ∧
      (parseFlags env { fl with fAlgo := "Prove" } s).2 = some "invalid algo" ∧
      (parseFlags env { fl with fAlgo := "PROVE" } s).2 = some "invalid algo" ∧
      (parseFlags env { fl with fAlgo := " prove" } s).2 = some "invalid algo" ∧
      (parseFlags env { fl with fAlgo := "" } s).2 = some "invalid algo" := by
  refine ⟨⟨?_, ?_⟩, ?_, ?_, ?_, ?_⟩
  · intro h
    by_contra hn
    exact h (by rw [parseFlags_of_invalid_algo env fl s hsize hcount hn])
  · intro h
    exact parseFlags_of_valid_algo env fl s hsize hcount h
  · have h : ¬ ValidAlgo "Prove" := by decide
    rw [parseFlags_of_invalid_algo env { fl with fAlgo := "Prove" } s hsize hcount h]
  · have h : ¬ ValidAlgo "PROVE" := by decide
    rw [parseFlags_of_invalid_algo env { fl with fAlgo := "PROVE" } s hsize hcount h]
  · have h : ¬ ValidAlgo " prove" := by decide
    rw [parseFlags_of_invalid_algo env { fl with fAlgo := " prove" } s hsize hcount h]
  · have h : ¬ ValidAlgo "" := by decide
    rw [parseFlags_of_invalid_algo env { fl with fAlgo := "" } s hsize hcount h]

/-- Witness for C9: the default size and count on the freshly initialised state. -/
theorem algo_check_exact_witness :
    ((parseFlags sampleEnv defaultFlags sampleInit).2 ≠ some "invalid algo" ↔
        (defaultFlags.fAlgo = "compile" ∨ defaultFlags.fAlgo = "setup" ∨
          defaultFlags.fAlgo = "prove" ∨ defaultFlags.fAlgo = "verify")) ∧
      (parseFlags sampleEnv { defaultFlags with fAlgo := "Prove" } sampleInit).2
        = some "invalid algo" ∧
      (parseFlags sampleEnv { defaultFlags with fAlgo := "PROVE" } sampleInit).2
        = some "invalid algo" ∧
      (parseFlags sampleEnv { defaultFlags with fAlgo := " prove" } sampleInit).2
        = some "invalid algo" ∧
      (parseFlags sampleEnv { defaultFlags with fAlgo := "" } sampleInit).2
        = some "invalid algo" :=
  algo_check_exact sampleEnv defaultFlags sampleInit (by decide) (by decide)

/-- C2: from a state with `curveID = ecc.UNKNOWN` (whatever `p` is, nil
included) and a flag assignment valid in every field, changing one field to
an invalid value gives the error of that field: size 0, count 0, algo "bogus",
profile "bogus", curve "bogus" (the name of no enumerated curve) and circuit
"bogus" (not a registry key); the six messages are pairwise distinct. -/
theorem parseFlags_single_invalid (env : Env PF BC) (fl : Flags) (s : State PF BC)
    (hfresh : s.curveID = env.UNKNOWN) (hvalid : ValidFlags env fl)
    (hunknown : ∀ id ∈ env.Implemented, id ≠ env.UNKNOWN)
    (hcurve : ¬ ∃ id ∈ env.Implemented, "bogus" = env.ToLower (env.idString id))
    (hcircuit : env.BenchCircuits "bogus" = none) :
    (parseFlags env { fl with fCircuitSize := 0 } s).2 = some "circuit size must be >= 0" ∧
      (parseFlags env { fl with fCount := 0 } s).2 = some "bench count must be >= 0" ∧
      (parseFlags env { fl with fAlgo := "bogus" } s).2 = some "invalid algo" ∧
      (parseFlags env { fl with fProfile := "bogus" } s).2 = some "invalid profile" ∧
      (parseFlags env { fl with fCurve := "bogus" } s).2 = some "invalid curve" ∧
      (parseFlags env { fl with fCircuit := "bogus" } s).2 = some "unknown circuit" ∧
      List.Pairwise (fun a b => a ≠ b)
        ["circuit size must be >= 0", "bench count must be >= 0", "invalid algo",
          "invalid profile", "invalid curve", "unknown circuit"] := by
  obtain ⟨hsize, hcount, halgo, hprofile, hvc, _⟩ := hvalid
  have hsw := (switchProfile_isSome_iff env fl.fProfile s.p).mpr hprofile
  obtain ⟨p1, hp1⟩ := Option.isSome_iff_exists.mp hsw
  refine ⟨?_, ?_, ?_, ?_, ?_, ?_, by decide⟩
  · simp [parseFlags]
  · unfold parseFlags
    rw [if_neg (not_le.mpr hsize)]
    simp
  · have h : ¬ ValidAlgo "bogus" := by decide
    rw [parseFlags_of_invalid_algo env { fl with fAlgo := "bogus" } s hsize hcount h]
  · rw [parseFlags_past_algo env { fl with fProfile := "bogus" } s hsize hcount halgo]
    have : switchProfile env "bogus" s.p = none := by simp [switchProfile]
    simp only [this]
  · rw [parseFlags_past_algo env { fl with fCurve := "bogus" } s hsize hcount halgo]
    have hr := rangeCurves_of_not_valid env "bogus" s.curveID hcurve
    simp only [hp1, hr, if_pos hfresh]
  · rw [parseFlags_past_algo env { fl with fCircuit := "bogus" } s hsize hcount halgo]
    have hv := rangeCurves_of_valid env fl.fCurve s.curveID hvc
    simp only [hp1, if_neg (hunknown _ hv.1), hcircuit]

/-- Witness for C2: the default flags on the freshly initialised state. -/
theorem parseFlags_single_invalid_witness :
    (parseFlags sampleEnv { defaultFlags with fCircuitSize := 0 } sampleInit).2
        = some "circuit size must be >= 0" ∧
      (parseFlags sampleEnv { defaultFlags with fCount := 0 } sampleInit).2
        = some "bench count must be >= 0" ∧
      (parseFlags sampleEnv { defaultFlags with fAlgo := "bogus" } sampleInit).2
        = some "invalid algo" ∧
      (parseFlags sampleEnv { defaultFlags with fProfile := "bogus" } sampleInit).2
        = some "invalid profile" ∧
      (parseFlags sampleEnv { defaultFlags with fCurve := "bogus" } sampleInit).2
        = some "invalid curve" ∧
      (parseFlags sampleEnv { defaultFlags with fCircuit := "bogus" } sampleInit).2
        = some "unknown circuit" ∧
      List.Pairwise (fun a b => a ≠ b)
        ["circuit size must be >= 0", "bench count must be >= 0", "invalid algo",
          "invalid profile", "invalid curve", "unknown circuit"] :=
  parseFlags_single_invalid sampleEnv defaultFlags sampleInit (by decide) (by decide) (by decide)
    (by decide) (by decide)

/-- C10: from a state with `curveID = ecc.UNKNOWN`, `parseFlags` is fail-fast in
the order size, count, algo, profile, curve, circuit: the returned error is
the one of the first failing check, and nil is returned exactly when none of
the six checks fails. -/
theorem parseFlags_fail_fast (env : Env PF BC) (fl : Flags) (s : State PF BC)
    (hfresh : s.curveID = env.UNKNOWN)
    (hunknown : ∀ id ∈ env.Implemented, id ≠ env.UNKNOWN) :
    (parseFlags env fl s).2 = firstFailingCheck env fl ∧
      ((parseFlags env fl s).2 = none ↔ ValidFlags env fl) := by
  have key : (parseFlags env fl s).2 = firstFailingCheck env fl := by
    unfold firstFailingCheck
    by_cases hsize : 0 < fl.fCircuitSize
    swap
    · simp [parseFlags, not_lt.mp hsize, hsize]
    by_cases hcount : 0 < fl.fCount
    swap
    · simp [parseFlags, not_le.mpr hsize, not_lt.mp hcount, hsize, hcount]
    by_cases halgo : ValidAlgo fl.fAlgo
    swap
    · rw [parseFlags_of_invalid_algo env fl s hsize hcount halgo]
      simp [hsize, hcount, halgo]
    rw [parseFlags_past_algo env fl s hsize hcount halgo]
    by_cases hprofile : ValidProfile fl.fProfile
    swap
    · have hn : switchProfile env fl.fProfile s.p = none := by
        cases h : switchProfile env fl.fProfile s.p with
        | none => rfl
        | some p1 =>
          exact absurd ((switchProfile_isSome_iff env fl.fProfile s.p).mp (by simp [h])) hprofile
      simp [hn, hsize, hcount, halgo, hprofile]
    obtain ⟨p1, hp1⟩ := Option.isSome_iff_exists.mp
      ((switchProfile_isSome_iff env fl.fProfile s.p).mpr hprofile)
    by_cases hvc : ValidCurve env fl.fCurve
    swap
    · have hr := rangeCurves_of_not_valid env fl.fCurve s.curveID hvc
      simp only [hp1, hr, if_pos hfresh]
      simp [hsize, hcount, halgo, hprofile, hvc]
    have hv := rangeCurves_of_valid env fl.fCurve s.curveID hvc
    simp only [hp1, if_neg (hunknown _ hv.1)]
    cases hbc : env.BenchCircuits fl.fCircuit <;>
      simp [hsize, hcount, halgo, hprofile, hvc]
  refine ⟨key, ?_⟩
  rw [key]
  unfold firstFailingCheck ValidFlags
  by_cases hsize : 0 < fl.fCircuitSize <;> by_cases hcount : 0 < fl.fCount <;>
    by_cases halgo : ValidAlgo fl.fAlgo <;> by_cases hprofile : ValidProfile fl.fProfile <;>
    by_cases hvc : ValidCurve env fl.fCurve <;>
    cases hbc : env.BenchCircuits fl.fCircuit <;>
    simp [hsize, hcount, halgo, hprofile, hvc]

/-- Witness for C10: size 0 together with algo "bogus" and curve "bogus" on the
freshly initialised state. -/
theorem parseFlags_fail_fast_witness :
    (parseFlags sampleEnv
        { defaultFlags with fCircuitSize := 0, fAlgo := "bogus", fCurve := "bogus" } sampleInit).2
        = firstFailingCheck sampleEnv
            { defaultFlags with fCircuitSize := 0, fAlgo := "bogus", fCurve := "bogus" } ∧
      ((parseFlags sampleEnv
        { defaultFlags with fCircuitSize := 0, fAlgo := "bogus", fCurve := "bogus" } sampleInit).2
        = none ↔
        ValidFlags sampleEnv
          { defaultFlags with fCircuitSize := 0, fAlgo := "bogus", fCurve := "bogus" }) :=
  parseFlags_fail_fast sampleEnv
    { defaultFlags with fCircuitSize := 0, fAlgo := "bogus", fCurve := "bogus" } sampleInit
    (by decide) (by decide)

/-! ## Claims that hold only in an adjusted form -/

/-- C3, as stated, fails: "BN254" differs from the name of the enumerated curve
1 only in letter case, yet from the freshly initialised state and with
otherwise valid flags `parseFlags` rejects it with "invalid curve", while
"bn254" succeeds and resolves to curve 1. -/
theorem curve_case_insensitive_counterexample :
    (1 ∈ sampleEnv.Implemented ∧
      asciiLower "BN254" = asciiLower (sampleEnv.idString 1) ∧
      asciiLower "bn254" = asciiLower (sampleEnv.idString 1)) ∧
      ValidFlags sampleEnv { defaultFlags with fCurve := "bn254" } ∧
      parseFlags sampleEnv { defaultFlags with fCurve := "bn254" } sampleInit
        = ({ curveID := 1, p := none, c := some "expo" }, none) ∧
      parseFlags sampleEnv { defaultFlags with fCurve := "BN254" } sampleInit
        = ({ curveID := 0, p := none, c := none }, some "invalid curve") := by
  decide

/-- C3, amended: the curve flag is compared as typed with the lower-cased name
of each enumerated curve.  With otherwise valid flags, a flag equal to such a
lower-cased name succeeds and resolves `curveID` to an enumerated curve with
that lower-cased name; a flag equal to none of them leaves `curveID` as it was,
and from `curveID = ecc.UNKNOWN` the call returns "invalid curve". -/
theorem curve_match_exact (env : Env PF BC) (fl : Flags) (s : State PF BC) (v : BC)
    (hsize : 0 < fl.fCircuitSize) (hcount : 0 < fl.fCount)
    (halgo : fl.fAlgo = "compile" ∨ fl.fAlgo = "setup" ∨ fl.fAlgo = "prove" ∨ fl.fAlgo = "verify")
    (hprofile : fl.fProfile = "none" ∨ fl.fProfile = "trace" ∨ fl.fProfile = "cpu" ∨
      fl.fProfile = "mem")
    (hunknown : ∀ id ∈ env.Implemented, id ≠ env.UNKNOWN)
    (hcircuit : env.BenchCircuits fl.fCircuit = some v) :
    ((∃ id ∈ env.Implemented, fl.fCurve = env.ToLower (env.idString id)) →
        (parseFlags env fl s).2 = none ∧
        (parseFlags env fl s).1.curveID ∈ env.Implemented ∧
        env.ToLower (env.idString (parseFlags env fl s).1.curveID) = fl.fCurve) ∧
      ((¬ ∃ id ∈ env.Implemented, fl.fCurve = env.ToLower (env.idString id)) →
        (parseFlags env fl s).1.curveID = s.curveID ∧
        (s.curveID = env.UNKNOWN → (parseFlags env fl s).2 = some "invalid curve")) := by
  rw [parseFlags_past_algo env fl s hsize hcount halgo]
  obtain ⟨p1, hp1⟩ := Option.isSome_iff_exists.mp
    ((switchProfile_isSome_iff env fl.fProfile s.p).mpr hprofile)
  simp only [hp1, hcircuit]
  constructor
  · intro hvc
    have hv := rangeCurves_of_valid env fl.fCurve s.curveID hvc
    simp only [if_neg (hunknown _ hv.1)]
    exact ⟨trivial, hv.1, hv.2.symm⟩
  · intro hvc
    have hr := rangeCurves_of_not_valid env fl.fCurve s.curveID hvc
    rw [hr]
    constructor
    · split <;> rfl
    · intro hfresh
      simp only [if_pos hfresh]

/-- Witness for the amended C3: the flag "BN254" on the freshly initialised
state. -/
theorem curve_match_exact_witness :
    ((∃ id ∈ sampleEnv.Implemented, "BN254" = sampleEnv.ToLower (sampleEnv.idString id)) →
        (parseFlags sampleEnv { defaultFlags with fCurve := "BN254" } sampleInit).2 = none ∧
        (parseFlags sampleEnv { defaultFlags with fCurve := "BN254" } sampleInit).1.curveID
          ∈ sampleEnv.Implemented ∧
        sampleEnv.ToLower (sampleEnv.idString
          (parseFlags sampleEnv { defaultFlags with fCurve := "BN254" } sampleInit).1.curveID)
          = "BN254") ∧
      ((¬ ∃ id ∈ sampleEnv.Implemented, "BN254" = sampleEnv.ToLower (sampleEnv.idString id)) →
        (parseFlags sampleEnv { defaultFlags with fCurve := "BN254" } sampleInit).1.curveID
          = sampleInit.curveID ∧
        (sampleInit.curveID = sampleEnv.UNKNOWN →
          (parseFlags sampleEnv { defaultFlags with fCurve := "BN254" } sampleInit).2
            = some "invalid curve")) :=
  curve_match_exact sampleEnv { defaultFlags with fCurve := "BN254" } sampleInit (some "expo")
    (by decide) (by decide) (by decide) (by decide) (by decide) (by decide)

/-- C4, as stated, fails: from the freshly initialised state, profile "trace"
with a circuit flag that is not a registry key returns "unknown circuit" with
`p` and `curveID` already assigned, and profile "trace" with a curve flag
naming no curve returns "invalid curve" with `p` already assigned. -/
theorem failed_call_writes_state :
    parseFlags sampleEnv { defaultFlags with fProfile := "trace", fCircuit := "bogus" } sampleInit
        = ({ curveID := 1, p := some ProfileFn.TraceProfile, c := none }, some "unknown circuit") ∧
      (parseFlags sampleEnv { defaultFlags with fProfile := "trace", fCircuit := "bogus" }
        sampleInit).1 ≠ sampleInit ∧
      parseFlags sampleEnv { defaultFlags with fProfile := "trace", fCurve := "bogus" } sampleInit
        = ({ curveID := 0, p := some ProfileFn.TraceProfile, c := none }, some "invalid curve") ∧
      (parseFlags sampleEnv { defaultFlags with fProfile := "trace", fCurve := "bogus" }
        sampleInit).1 ≠ sampleInit := by
  decide

/-- C4, amended: an error of `parseFlags` is one of the six messages.  When it
is the size, count, algo or profile error, `p`, `curveID` and `c` hold exactly
their prior values.  When it is "invalid curve", `c` is unchanged and
`curveID` is `ecc.UNKNOWN` (its prior value when no enumerated curve is
`ecc.UNKNOWN`), but `p` has already been assigned by the profile switch.  When
it is "unknown circuit", `p` has been assigned by the profile switch,
`curveID` is a resolved curve other than `ecc.UNKNOWN` and `c` is the zero
value of the failed lookup. -/
theorem error_state (env : Env PF BC) (fl : Flags) (s : State PF BC) (msg : String)
    (herr : (parseFlags env fl s).2 = some msg) :
    (msg = "circuit size must be >= 0" ∨ msg = "bench count must be >= 0" ∨
        msg = "invalid algo" ∨ msg = "invalid profile" ∨ msg = "invalid curve" ∨
        msg = "unknown circuit") ∧
      ((msg = "circuit size must be >= 0" ∨ msg = "bench count must be >= 0" ∨
        msg = "invalid algo" ∨ msg = "invalid profile") → (parseFlags env fl s).1 = s) ∧
      (msg = "invalid curve" →
        (parseFlags env fl s).1.c = s.c ∧
        (parseFlags env fl s).1.curveID = env.UNKNOWN ∧
        ((∀ id ∈ env.Implemented, id ≠ env.UNKNOWN) → (parseFlags env fl s).1.curveID = s.curveID) ∧
        switchProfile env fl.fProfile s.p = some (parseFlags env fl s).1.p) ∧
      (msg = "unknown circuit" →
        (parseFlags env fl s).1.c = env.nilCircuit ∧
        (parseFlags env fl s).1.curveID ≠ env.UNKNOWN ∧
        switchProfile env fl.fProfile s.p = some (parseFlags env fl s).1.p) := by
  rcases parseFlags_outcomes env fl s with h | h | h | h | ⟨p1, hp1, hu, h⟩ | ⟨p1, hp1, hu, _, h⟩ |
    ⟨p1, v, _, _, _, h⟩
  · rw [h] at herr ⊢
    have hm : msg = "circuit size must be >= 0" := by simpa using herr.symm
    subst hm
    simp
  · rw [h] at herr ⊢
    have hm : msg = "bench count must be >= 0" := by simpa using herr.symm
    subst hm
    simp
  · rw [h] at herr ⊢
    have hm : msg = "invalid algo" := by simpa using herr.symm
    subst hm
    simp
  · rw [h] at herr ⊢
    have hm : msg = "invalid profile" := by simpa using herr.symm
    subst hm
    simp
  · rw [h] at herr ⊢
    have hm : msg = "invalid curve" := by simpa using herr.symm
    subst hm
    refine ⟨by simp, by simp, fun _ => ⟨rfl, hu, ?_, hp1⟩, by simp⟩
    intro hunknown
    rcases rangeCurves_cases env fl.fCurve env.Implemented s.curveID with hc | hc
    · exact hc.1
    · exact absurd hu (hunknown _ hc.1)
  · rw [h] at herr ⊢
    have hm : msg = "unknown circuit" := by simpa using herr.symm
    subst hm
    exact ⟨by simp, by simp, by simp, fun _ => ⟨rfl, hu, hp1⟩⟩
  · rw [h] at herr
    simp at herr

/-- Witness for the amended C4: profile "trace" with the circuit flag "bogus" on
the freshly initialised state. -/
theorem error_state_witness :
    ("unknown circuit" = "circuit size must be >= 0" ∨
        "unknown circuit" = "bench count must be >= 0" ∨
        "unknown circuit" = "invalid algo" ∨ "unknown circuit" = "invalid profile" ∨
        "unknown circuit" = "invalid curve" ∨ "unknown circuit" = "unknown circuit") ∧
      (("unknown circuit" = "circuit size must be >= 0" ∨
        "unknown circuit" = "bench count must be >= 0" ∨
        "unknown circuit" = "invalid algo" ∨ "unknown circuit" = "invalid profile") →
        (parseFlags sampleEnv { defaultFlags with fProfile := "trace", fCircuit := "bogus" }
          sampleInit).1 = sampleInit) ∧
      ("unknown circuit" = "invalid curve" →
        (parseFlags sampleEnv { defaultFlags with fProfile := "trace", fCircuit := "bogus" }
          sampleInit).1.c = sampleInit.c ∧
        (parseFlags sampleEnv { defaultFlags with fProfile := "trace", fCircuit := "bogus" }
          sampleInit).1.curveID = sampleEnv.UNKNOWN ∧
        ((∀ id ∈ sampleEnv.Implemented, id ≠ sampleEnv.UNKNOWN) →
          (parseFlags sampleEnv { defaultFlags with fProfile := "trace", fCircuit := "bogus" }
            sampleInit).1.curveID = sampleInit.curveID) ∧
        switchProfile sampleEnv "trace" sampleInit.p
          = some (parseFlags sampleEnv
              { defaultFlags with fProfile := "trace", fCircuit := "bogus" } sampleInit).1.p) ∧
      ("unknown circuit" = "unknown circuit" →
        (parseFlags sampleEnv { defaultFlags with fProfile := "trace", fCircuit := "bogus" }
          sampleInit).1.c = sampleEnv.nilCircuit ∧
        (parseFlags sampleEnv { defaultFlags with fProfile := "trace", fCircuit := "bogus" }
          sampleInit).1.curveID ≠ sampleEnv.UNKNOWN ∧
        switchProfile sampleEnv "trace" sampleInit.p
          = some (parseFlags sampleEnv
              { defaultFlags with fProfile := "trace", fCircuit := "bogus" } sampleInit).1.p) :=
  error_state sampleEnv { defaultFlags with fProfile := "trace", fCircuit := "bogus" } sampleInit
    "unknown circuit" (by decide)

/-! ## Calls on a state left by an earlier call -/

/-- C5: the code at a failing input.  A first call with the default flags
resolves the curve "bn254"; a second call in the same process, with size,
count, algo and profile valid and the curve flag "bogus", which is the
lower-cased name of no enumerated curve, does not return "invalid curve": it
returns nil, `curveID` still holding the curve of the first call. -/
theorem stale_curve_accepted :
    (0 < ({ defaultFlags with fCurve := "bogus" } : Flags).fCircuitSize ∧
      0 < ({ defaultFlags with fCurve := "bogus" } : Flags).fCount ∧
      ValidAlgo ({ defaultFlags with fCurve := "bogus" } : Flags).fAlgo ∧
      ValidProfile ({ defaultFlags with fCurve := "bogus" } : Flags).fProfile ∧
      ¬ ∃ id ∈ sampleEnv.Implemented, "bogus" = sampleEnv.ToLower (sampleEnv.idString id)) ∧
      parseFlags sampleEnv defaultFlags sampleInit
        = ({ curveID := 1, p := none, c := some "expo" }, none) ∧
      parseFlags sampleEnv { defaultFlags with fCurve := "bogus" }
          (parseFlags sampleEnv defaultFlags sampleInit).1
        = ({ curveID := 1, p := none, c := some "expo" }, none) ∧
      (parseFlags sampleEnv { defaultFlags with fCurve := "bogus" }
          (parseFlags sampleEnv defaultFlags sampleInit).1).2 ≠ some "invalid curve" := by
  decide

/-- C8: the code at a failing input.  A first call with profile "trace"
selects the trace factory; a second call in the same process with profile
"none" (the default flags) succeeds and `p` still holds the trace factory
instead of nil.  The same happens on any state in which `p` holds the trace
factory. -/
theorem profile_none_keeps_stale_factory :
    defaultFlags.fProfile = "none" ∧
      parseFlags sampleEnv { defaultFlags with fProfile := "trace" } sampleInit
        = ({ curveID := 1, p := some ProfileFn.TraceProfile, c := some "expo" }, none) ∧
      parseFlags sampleEnv defaultFlags
          (parseFlags sampleEnv { defaultFlags with fProfile := "trace" } sampleInit).1
        = ({ curveID := 1, p := some ProfileFn.TraceProfile, c := some "expo" }, none) ∧
      (parseFlags sampleEnv defaultFlags
          (parseFlags sampleEnv { defaultFlags with fProfile := "trace" } sampleInit).1).1.p
        ≠ none ∧
      parseFlags sampleEnv defaultFlags
          { curveID := 0, p := some ProfileFn.TraceProfile, c := none }
        = ({ curveID := 1, p := some ProfileFn.TraceProfile, c := some "expo" }, none) := by
  decide

end GnarkBench
